import Mathlib

/-!
# A shallow embedding of `src/bin/jirafly.py`

This file models the command-line JIRA client `jirafly.py` as pure Lean
functions.  Remote JIRA calls are abstracted by an `Oracle` supplying the
result of each successive remote call; each handler returns the list of
lines it printed, the remote calls it performed (in order) and how it
terminated (normal return, `sys.exit(code)`, or an uncaught Python
exception).  File I/O (the credentials file and the template catalog) is
abstracted by passing the parsed file contents — or `none` for a
missing/unreadable file — as arguments.
-/

namespace Jirafly

/-! ## Constants (from the GLOBALS section of jirafly.py) -/

def CACHED_CREDS : String := "$HOME/.jf/jira.creds"

def CMD_ISSUE_CREATE : String := "issue-create"
def CMD_TEMPLATE_CREATE : String := "template-create"
def CMD_TEMPLATE_LIST : String := "template-list"

def ACTION_ADD : String := "add"
def ACTION_REMOVE : String := "remove"

def PRIORITY_MAJOR : String := "Major"

def ISSUE_TYPE_EPIC : String := "Epic"
def ISSUE_TYPE_SUBTASK : String := "Sub-task"

/-! ## Python runtime fragments -/

/-- Python exceptions other than `JIRAError` that the script can raise and
does not catch on the relevant paths. -/
inductive PyExc where
  /-- `ValueError`, raised by `list.remove(x)` when `x` is not in the list. -/
  | valueError
  /-- `KeyError`, raised by indexing a dict with an absent key. -/
  | keyError
  /-- `TypeError`, raised e.g. by `str + None` or by `%`-formatting. -/
  | typeError
  deriving DecidableEq, Repr

/-- How a handler run terminates: a normal return, `sys.exit(code)`, or an
uncaught Python exception propagating out of the handler. -/
inductive Term where
  | normal
  | exited (code : Nat)
  | uncaught (e : PyExc)
  deriving DecidableEq, Repr

/-- Python `list.remove(x)`: remove the first element equal to `x`;
`none` models the `ValueError` raised when no element is equal to `x`.
For `doComponentManage` the elements are the `name` entries of the
component dicts (dict equality reduces to name equality). -/
def pyListRemove (xs : List String) (x : String) : Option (List String) :=
  match xs with
  | [] => none
  | y :: ys =>
    if y = x then some ys
    else (pyListRemove ys x).map (fun zs => y :: zs)

/-- The sequence `for v in vals: xs.remove(v)`; `none` models the first
`ValueError`. -/
def pyListRemoveAll (xs : List String) (vals : List String) : Option (List String) :=
  match vals with
  | [] => some xs
  | v :: vs =>
    match pyListRemove xs v with
    | none => none
    | some ys => pyListRemoveAll ys vs

/-- Python `repr` of a list of strings, as printed by `print(list)`. -/
def pyReprStrList (xs : List String) : String :=
  "[" ++ String.intercalate ", " (xs.map (fun s => "'" ++ s ++ "'")) ++ "]"

/-- Python `pat in s` (equivalently `s.find(pat) >= 0` for the uses in the
script): `pat` occurs as a substring of `s`.  For a non-empty pattern,
`s.splitOn pat` has at least two pieces exactly when `pat` occurs in `s`. -/
def strContains (s pat : String) : Bool :=
  2 ≤ (s.splitOn pat).length

/-! ## COMPONENT::Add or Remove and LABEL::Add or Remove

`doComponentManage(jira, key, component, action)` and
`doLabelManage(jira, key, label, action)` from jirafly.py.  The issue
fetch `jira.issue(key)` is abstracted as `fetch` (its `.error` carries the
`JIRAError` text; its `.ok` carries the current component names / labels
of the issue), and the single `issue.update(fields=...)` call as
`updateRes`.  `writes` records every `issue.update` call attempted, each
carrying the whole new list sent to the server. -/

structure ManageResult where
  printed : List String
  writes : List (List String)
  term : Term
  deriving DecidableEq, Repr

def doComponentManage (fetch : Except String (List String))
    (updateRes : Except String Unit)
    (component : Option (List String)) (action : String) : ManageResult :=
  match component with
  | none => ⟨["ERROR: A valid component value must be specified."], [], Term.exited 1⟩
  | some vals =>
    match fetch with
    | Except.error msg =>
      ⟨["ERROR: Failed to manage issue components: " ++ msg], [], Term.exited 1⟩
    | Except.ok cur =>
      -- add: append an entry for each supplied name
      let components := if action = ACTION_ADD then cur ++ vals else cur
      -- remove: components.remove for each supplied name; a missing name
      -- raises ValueError, which `except JIRAError` does NOT catch
      match (if action = ACTION_REMOVE then pyListRemoveAll components vals
             else some components) with
      | none => ⟨[], [], Term.uncaught PyExc.valueError⟩
      | some newComponents =>
        match updateRes with
        | Except.ok _ =>
          -- the OK line prints the stale fetched component objects
          ⟨["OK: Issue components are now: " ++ pyReprStrList cur],
           [newComponents], Term.normal⟩
        | Except.error msg =>
          ⟨["ERROR: Failed to manage issue components: " ++ msg],
           [newComponents], Term.exited 1⟩

def doLabelManage (fetch : Except String (List String))
    (updateRes : Except String Unit)
    (label : Option (List String)) (action : String) : ManageResult :=
  match label with
  | none => ⟨["ERROR: A valid label value must be specified."], [], Term.exited 1⟩
  | some vals =>
    match fetch with
    | Except.error msg =>
      ⟨["ERROR: Failed to manage issue labels: " ++ msg], [], Term.exited 1⟩
    | Except.ok cur =>
      let labels := if action = ACTION_ADD then cur ++ vals else cur
      match (if action = ACTION_REMOVE then pyListRemoveAll labels vals
             else some labels) with
      | none => ⟨[], [], Term.uncaught PyExc.valueError⟩
      | some newLabels =>
        match updateRes with
        | Except.ok _ =>
          ⟨["OK: Issue labels are now: " ++ pyReprStrList cur],
           [newLabels], Term.normal⟩
        | Except.error msg =>
          ⟨["ERROR: Failed to manage issue labels: " ++ msg],
           [newLabels], Term.exited 1⟩

/-! ## ISSUE::Create — the field payload and the remote calls

`doIssueCreate(jira, project, issuetype, parent, priority, summary,
description, assignee, components, labels)`.  The `fields` dict is
modelled as an association list in insertion order; JSON values that can
be Python `None` are `Option`s. -/

/-- A value stored in the `fields` dict of a create request. -/
inductive FieldVal where
  /-- a plain (possibly `None`) string value -/
  | str (s : Option String)
  /-- a dict of the form `key: k` (e.g. project, parent) -/
  | keyObj (k : Option String)
  /-- a dict of the form `name: n` (e.g. issuetype, priority, assignee) -/
  | nameObj (n : Option String)
  /-- a list of `name: c` dicts (the components field) -/
  | nameList (ns : List String)
  /-- a list of plain strings (the labels field) -/
  | strList (ss : List String)
  deriving DecidableEq, Repr

/-- The `fields` dict built by `doIssueCreate`, in insertion order. -/
def buildFields (project : Option String) (issuetype : String)
    (parent : Option String) (priority : String)
    (summary description assignee : Option String)
    (components labels : Option (List String)) : List (String × FieldVal) :=
  [("project", FieldVal.keyObj project),
   ("issuetype", FieldVal.nameObj (some issuetype)),
   ("priority", FieldVal.nameObj (some priority)),
   ("summary", FieldVal.str summary),
   ("assignee", FieldVal.nameObj assignee)]
  ++ (match description with
      | some d => [("description", FieldVal.str (some d))]
      | none => [])
  ++ (match components with
      | some cs => [("components", FieldVal.nameList cs)]
      | none => [])
  ++ (match labels with
      | some ls => [("labels", FieldVal.strList ls)]
      | none => [])
  -- Epics need an extra name field, in a custom field
  ++ (if issuetype = ISSUE_TYPE_EPIC then
        [("customfield_12311141", FieldVal.str summary)]
      else [])
  -- Is this a sub-task (needs a parent)?
  ++ (match parent with
      | some p =>
        if issuetype = ISSUE_TYPE_SUBTASK then [("parent", FieldVal.keyObj (some p))]
        else []
      | none => [])

/-- One remote JIRA call performed by the client. -/
inductive RemoteCall where
  /-- `jira.create_issue(fields, True)` -/
  | createIssue (fields : List (String × FieldVal))
  /-- `jira.add_issues_to_epic(epic, keys)` -/
  | addIssuesToEpic (epic : String) (keys : List String)
  /-- `jira.search_issues(query)` -/
  | searchIssues (query : String)
  /-- `issue.delete()` (performed only by `doIssueDelete`) -/
  | deleteIssue (key : String)
  deriving DecidableEq, Repr

/-- The printed lines and remote calls accumulated during a run. -/
structure Trace where
  calls : List RemoteCall
  printed : List String
  deriving DecidableEq, Repr

/-- The payloads of the `create_issue` calls in a call list, in order. -/
def createdFields (calls : List RemoteCall) : List (List (String × FieldVal)) :=
  calls.filterMap fun c =>
    match c with
    | RemoteCall.createIssue f => some f
    | _ => none

/-- How many issues a call list creates. -/
def countCreates (calls : List RemoteCall) : Nat :=
  (createdFields calls).length

/-- How many `add_issues_to_epic` calls a call list contains. -/
def countEpicLinks (calls : List RemoteCall) : Nat :=
  (calls.filter fun c =>
    match c with
    | RemoteCall.addIssuesToEpic _ _ => true
    | _ => false).length

/-- The predetermined results of the remote calls: the n-th
`create_issue` call (counting from 0) returns `createRes n` (`.ok` with
the new issue key, or `.error` with the `JIRAError` text), and similarly
for epic links and searches (a search returns the keys of the matching
issues). -/
structure Oracle where
  createRes : Nat → Except String String
  epicRes : Nat → Except String Unit
  searchRes : String → List String

def doIssueCreate (o : Oracle) (t : Trace) (project : Option String)
    (issuetype : String) (parent : Option String) (priority : String)
    (summary description assignee : Option String)
    (components labels : Option (List String)) : Trace × Except Term String :=
  let fields := buildFields project issuetype parent priority summary
    description assignee components labels
  -- Try to create the issue
  let idx := countCreates t.calls
  let t1 : Trace := ⟨t.calls ++ [RemoteCall.createIssue fields], t.printed⟩
  match o.createRes idx with
  | Except.error e =>
    (⟨t1.calls, t1.printed ++ ["ERROR: Could not create issue: " ++ e]⟩,
     Except.error (Term.exited 1))
  | Except.ok key =>
    -- Maybe try to add the created issue to an epic
    match parent with
    | none => (t1, Except.ok key)
    | some p =>
      if issuetype = ISSUE_TYPE_SUBTASK then (t1, Except.ok key)
      else
        let eidx := countEpicLinks t1.calls
        let t2 : Trace := ⟨t1.calls ++ [RemoteCall.addIssuesToEpic p [key]], t1.printed⟩
        match o.epicRes eidx with
        | Except.error e =>
          (⟨t2.calls, t2.printed ++ ["ERROR: Could not link issue to epic: " ++ e]⟩,
           Except.error (Term.exited 1))
        | Except.ok _ => (t2, Except.ok key)

/-- `doIssueDelete(jira, project, key)`, with the issue lookup abstracted
as `fetch`.  Included to ground `RemoteCall.deleteIssue`: it is the only
handler that deletes an issue. -/
def doIssueDelete (fetch : Except String Unit) (deleteRes : Except String Unit)
    (key : String) : Trace × Except Term Unit :=
  match fetch with
  | Except.error e =>
    (⟨[], ["ERROR: Specified JIRA key does not exist: " ++ e]⟩,
     Except.error (Term.exited 1))
  | Except.ok _ =>
    match deleteRes with
    | Except.error e =>
      (⟨[RemoteCall.deleteIssue key],
        ["ERROR: Specified JIRA key does not exist: " ++ e]⟩,
       Except.error (Term.exited 1))
    | Except.ok _ =>
      (⟨[RemoteCall.deleteIssue key], ["OK: JIRA issue deleted successfully."]⟩,
       Except.ok ())

/-! ## TEMPLATE::Create and TEMPLATE::List

The template catalog is a JSON object mapping template identifiers to a
`parent` issue definition; the children live under the parent's
`children` key.  Dict keys that the script only reads inside a guard (or
inside a `try`) are `Option`s, with `none` modelling an absent key. -/

/-- A child issue definition of a template. -/
structure ChildDef where
  summary : String
  description : String
  type : String
  components : Option (List String)
  labels : Option (List String)
  sop : String
  deriving DecidableEq, Repr

/-- The `parent` issue definition of a template. -/
structure ParentDef where
  summary : String
  description : String
  /-- the `project` key; `none` models its absence (reading it then
  raises `KeyError`) -/
  project : Option String
  type : String
  components : Option (List String)
  labels : Option (List String)
  sop : String
  /-- the `be_unique` key; `none` models its absence (the script catches
  the resulting `KeyError` and skips the uniqueness pre-check) -/
  be_unique : Option Bool
  children : List ChildDef
  deriving DecidableEq, Repr

/-- One entry of the template catalog. -/
structure Template where
  parent : ParentDef
  deriving DecidableEq, Repr

/-- Python `%`-formatting, `template % arg`, abstracted as a parameter of
the embedding (it is a Python builtin, not part of the repository);
`.error ()` models the `TypeError` raised when the template has no (or
too many) formatting directives for the single argument. -/
abbrev PyFmt := String → Option String → Except Unit String

/-- Appending the Standard Operating Procedure reference to a
description, done for the parent and for each child when the `sop` field
is not the literal sentinel. -/
def sopAppend (description sop : String) : String :=
  if sop ≠ "-" then
    description ++
      "\n\nFurther details on what this entails and why it is important are available at:\n\n* "
      ++ sop
  else description

/-- The JQL query of the uniqueness pre-check. -/
def searchQuery (project summary : String) : String :=
  "project=" ++ project ++ " and summary~\"" ++ summary ++ "\""

/-! ## Derived descriptions of the remote traffic

Straight-line descriptions of the calls the handlers make, used to state
the theorems below; `doTemplateCreate` is proved equal to them under a
successful oracle. -/

/-- The epic-link calls `doIssueCreate` performs after a successful
creation: one call exactly when a parent was supplied and the type is not
Sub-task. -/
def epicLinkCalls (issuetype : String) (parent : Option String)
    (key : String) : List RemoteCall :=
  match parent with
  | none => []
  | some p =>
    if issuetype = ISSUE_TYPE_SUBTASK then []
    else [RemoteCall.addIssuesToEpic p [key]]

/-- The description a child ends up with when the formatting does not
raise: formatted if it contains a directive, verbatim otherwise. -/
def childDescriptionOk (pyFmt : PyFmt) (c : ChildDef) (sfx : String) : String :=
  if strContains c.description "%s" then
    match pyFmt c.description (some sfx) with
    | Except.ok d => d
    | Except.error _ => c.description
  else c.description

/-- The field payload of a child's create call. -/
def childFields (pyFmt : PyFmt) (project sfx assignee pk : String)
    (c : ChildDef) : List (String × FieldVal) :=
  buildFields (some project) c.type (some pk) PRIORITY_MAJOR
    (some (c.summary ++ ": " ++ sfx))
    (some (sopAppend (childDescriptionOk pyFmt c sfx) c.sop))
    (some assignee) c.components c.labels

/-- The calls the child loop makes when every remote call succeeds, the
n-th create call returning key `keyOf n`; `i` is the index of the next
create call. -/
def expectedChildCalls (pyFmt : PyFmt) (project sfx assignee pk : String)
    (keyOf : Nat → String) : Nat → List ChildDef → List RemoteCall
  | _, [] => []
  | i, c :: cs =>
    (RemoteCall.createIssue (childFields pyFmt project sfx assignee pk c)
      :: epicLinkCalls c.type (some pk) (keyOf i))
    ++ expectedChildCalls pyFmt project sfx assignee pk keyOf (i + 1) cs

/-- The parent summary computed by `doTemplateCreate` (the bare `except`
turns a `None` suffix into the verbatim template summary). -/
def parentSummary (parent : ParentDef) (suffix : Option String) : String :=
  match suffix with
  | some s => parent.summary ++ ": " ++ s
  | none => parent.summary

/-- The parent description computed by `doTemplateCreate`. -/
def parentDescription (pyFmt : PyFmt) (parent : ParentDef)
    (suffix : Option String) : String :=
  sopAppend
    (match pyFmt parent.description suffix with
     | Except.ok d => d
     | Except.error _ => parent.description)
    parent.sop

/-- The project used by `doTemplateCreate`: the `--project` value if
present, else the template parent's `project` key (if that is also
absent, the script raises an uncaught `KeyError`). -/
def resolveProject (project : Option String) (parent : ParentDef) :
    Option String :=
  match project with
  | some p => some p
  | none => parent.project

/-- The field payload of the parent's create call. -/
def parentFields (pyFmt : PyFmt) (project : String) (suffix : Option String)
    (assignee : String) (parent : ParentDef) : List (String × FieldVal) :=
  buildFields (some project) parent.type none PRIORITY_MAJOR
    (some (parentSummary parent suffix))
    (some (parentDescription pyFmt parent suffix))
    (some assignee) parent.components parent.labels

/-- The search call of the uniqueness pre-check, when the template asks
for it. -/
def uniqueCheckCalls (parent : ParentDef) (q : String) : List RemoteCall :=
  match parent.be_unique with
  | some true => [RemoteCall.searchIssues q]
  | _ => []

/-- One step of the child description computation: format if the
description contains a directive (an uncaught `TypeError` if the
formatting still fails), else use it verbatim. -/
def childDescStep (pyFmt : PyFmt) (c : ChildDef) (sfx : String) :
    Except PyExc String :=
  if strContains c.description "%s" then
    match pyFmt c.description (some sfx) with
    | Except.ok d => Except.ok d
    | Except.error _ => Except.error PyExc.typeError
  else Except.ok c.description

/-- The `for child in parent['children']` loop of `doTemplateCreate`.
Each child summary is `child['summary'] + ": " + suffix` — with no
`try`, so a `None` suffix raises an uncaught `TypeError` here. -/
def templateChildLoop (o : Oracle) (pyFmt : PyFmt) (project : String)
    (suffix : Option String) (assignee pk : String) :
    Trace → List ChildDef → Trace × Except Term Unit
  | t, [] => (t, Except.ok ())
  | t, c :: cs =>
    match suffix with
    | none => (t, Except.error (Term.uncaught PyExc.typeError))
    | some sfx =>
      let summary := c.summary ++ ": " ++ sfx
      match childDescStep pyFmt c sfx with
      | Except.error e => (t, Except.error (Term.uncaught e))
      | Except.ok d =>
        let description := sopAppend d c.sop
        match doIssueCreate o t (some project) c.type (some pk) PRIORITY_MAJOR
          (some summary) (some description) (some assignee)
          c.components c.labels with
        | (t1, Except.error term) => (t1, Except.error term)
        | (t1, Except.ok _) =>
          templateChildLoop o pyFmt project suffix assignee pk t1 cs

/-- The tail of `doTemplateCreate` after the uniqueness pre-check:
create the parent issue, then the children. -/
def doTemplateCreateRest (o : Oracle) (pyFmt : PyFmt) (t : Trace)
    (project : String) (suffix : Option String) (assignee : String)
    (parent : ParentDef) (summary description : String) :
    Trace × Except Term String :=
  match doIssueCreate o t (some project) parent.type none PRIORITY_MAJOR
    (some summary) (some description) (some assignee)
    parent.components parent.labels with
  | (t1, Except.error term) => (t1, Except.error term)
  | (t1, Except.ok pk) =>
    match templateChildLoop o pyFmt project suffix assignee pk t1 parent.children with
    | (t2, Except.error term) => (t2, Except.error term)
    | (t2, Except.ok _) => (t2, Except.ok pk)

/-- `doTemplateCreate(jira, project, tid, suffix, assignee)`.  The
catalog file contents are passed in as `templates`; `tid` and `suffix`
are the raw `--template` and `--summary` CLI values (possibly `None`). -/
def doTemplateCreate (o : Oracle) (pyFmt : PyFmt)
    (templates : List (String × Template)) (t : Trace)
    (project : Option String) (tid : Option String) (suffix : Option String)
    (assignee : Option String) : Trace × Except Term String :=
  -- templates[tid]: KeyError (uncaught) if the id is absent or None
  match (match tid with
         | none => none
         | some s => templates.lookup s) with
  | none => (t, Except.error (Term.uncaught PyExc.keyError))
  | some template =>
    let assignee := assignee.getD ""
    let parent := template.parent
    let summary := parentSummary parent suffix
    -- the sop text is appended after the project is resolved in the
    -- source; both steps are pure, so the order is immaterial
    let description := parentDescription pyFmt parent suffix
    match resolveProject project parent with
    | none => (t, Except.error (Term.uncaught PyExc.keyError))
    | some project =>
      match parent.be_unique with
      | some true =>
        -- Search for this issue existing already
        let q := searchQuery project summary
        let t1 : Trace := ⟨t.calls ++ [RemoteCall.searchIssues q], t.printed⟩
        let keys := o.searchRes q
        if keys.length ≠ 0 then
          (⟨t1.calls, t1.printed ++ ("Issue already exists with key(s): " :: keys)⟩,
           Except.error (Term.exited 0))
        else
          doTemplateCreateRest o pyFmt t1 project suffix assignee parent
            summary description
      | _ =>
        doTemplateCreateRest o pyFmt t project suffix assignee parent
          summary description

/-- `doTemplateList()`: the sorted list of template identifiers
(`sorted(templates.keys())`). -/
def doTemplateList (templates : List (String × Template)) : List String :=
  List.insertionSort (fun a b => a ≤ b) (templates.map Prod.fst)

/-! ## MAIN

A slice of `main()`: the credentials-loading phase (skipped exactly for
the template-list action) and the dispatch of the issue-create,
template-create and template-list actions.  The remaining handler
branches of the dispatch are not modelled here and no theorem below
invokes `mainRun` with their actions (in `main` they only differ after
the credentials phase); the `target` branch is likewise not modelled. -/

/-- The parsed contents of the cached credentials file. -/
structure Creds where
  server : String
  username : Option String
  token : Option String
  project : Option String
  deriving DecidableEq, Repr

/-- The parsed command-line arguments, as produced by `genParser`. -/
structure Args where
  action : String
  server : String
  username : Option String
  password : Option String
  token : Option String
  project : Option String
  parent : Option String
  summary : Option String
  assignee : Option String
  reporter : Option String
  duedate : Option String
  watcher : Option String
  message : Option String
  key : Option String
  description : Option String
  issuetype : String
  priority : String
  components : Option String
  labels : Option String
  template : Option String
  deriving DecidableEq, Repr

/-- The observable outcome of a `main` run: whether the credentials file
was opened, the remote calls made, the lines printed, and how the
process terminated. -/
structure MainResult where
  credsRead : Bool
  calls : List RemoteCall
  printed : List String
  term : Term
  deriving DecidableEq, Repr

def mainRun (o : Oracle) (pyFmt : PyFmt) (credsFile : Option Creds)
    (catalog : List (String × Template)) (args : Args) : MainResult :=
  -- Convert some input arguments into JSON structures
  let components := args.components.map (fun s => s.splitOn ",")
  let labels := args.labels.map (fun s => s.splitOn ",")
  -- Try to load JIRA credentials from local/cached file
  -- (skipped when the action is template-list)
  if args.action = CMD_TEMPLATE_LIST then
    ⟨false, [], [pyReprStrList (doTemplateList catalog)], Term.normal⟩
  else
    match credsFile with
    | none =>
      -- the bare except turns any failure of the load into this error
      ⟨true, [],
       ["ERROR: Could not load credentials from " ++ CACHED_CREDS ++
        ". You may need to target the JIRA server first."],
       Term.exited 1⟩
    | some creds =>
      -- project from the credentials, overridden by --project if present
      let project := match args.project with
        | some p => some p
        | none => creds.project
      if args.action = CMD_ISSUE_CREATE then
        match doIssueCreate o ⟨[], []⟩ project args.issuetype args.parent
          args.priority args.summary args.description args.assignee
          components labels with
        | (t, Except.ok key) =>
          ⟨true, t.calls, t.printed ++ [creds.server ++ "/browse/" ++ key],
           Term.normal⟩
        | (t, Except.error term) => ⟨true, t.calls, t.printed, term⟩
      else if args.action = CMD_TEMPLATE_CREATE then
        match doTemplateCreate o pyFmt catalog ⟨[], []⟩ project args.template
          args.summary args.assignee with
        | (t, Except.ok key) =>
          ⟨true, t.calls, t.printed ++ [creds.server ++ "/browse/" ++ key],
           Term.normal⟩
        | (t, Except.error term) => ⟨true, t.calls, t.printed, term⟩
      else
        ⟨true, [], [], Term.normal⟩

/-! ## Concrete fixtures used by the witness theorems -/

/-- An oracle whose create calls all succeed with key `NEW-1`, whose epic
links succeed, and whose searches find nothing. -/
def oW : Oracle :=
  ⟨fun _ => Except.ok "NEW-1", fun _ => Except.ok (), fun _ => []⟩

/-- An oracle whose create calls succeed with key `NEW-1` but whose epic
links fail with message `boom`. -/
def oWepicFail : Oracle :=
  ⟨fun _ => Except.ok "NEW-1", fun _ => Except.error "boom", fun _ => []⟩

/-- Keys handed out by the witness oracles: the n-th create returns `K-n`. -/
def keyOfW : Nat → String := fun n => "K-" ++ toString n

/-- An oracle whose n-th create succeeds with key `keyOfW n`, whose epic
links succeed and whose searches find nothing. -/
def oWkeys : Oracle :=
  ⟨fun n => Except.ok (keyOfW n), fun _ => Except.ok (), fun _ => []⟩

/-- Like `oWkeys`, but every search finds the existing issue `OLD-1`. -/
def oWfound : Oracle :=
  ⟨fun n => Except.ok (keyOfW n), fun _ => Except.ok (), fun _ => ["OLD-1"]⟩

/-- A formatting function for the witnesses: always succeeds, returning
the template unchanged. -/
def pyFmtW : PyFmt := fun s _ => Except.ok s

/-- A concrete two-child template whose parent summary is
`Release Checklist` and which asks to be unique. -/
def tplW : Template :=
  ⟨⟨"Release Checklist", "Track %s", some "ACME", "Task", none, some ["rel"], "-",
    some true,
    [⟨"Prepare build", "do %s", "Sub-task", none, none, "-"⟩,
     ⟨"Announce", "plain", "Task", none, none, "http://sop"⟩]⟩⟩

/-- A one-entry template catalog holding `tplW` under id `rel`. -/
def catalogW : List (String × Template) := [("rel", tplW)]

/-- Concrete cached credentials for the witnesses. -/
def credsW : Creds := ⟨"https://jira.example", some "me", some "tok", some "ACME"⟩

/-- Parsed CLI arguments for a template-list invocation. -/
def argsWlist : Args :=
  ⟨"template-list", "https://issues.redhat.com", none, none, none, none, none, none,
   none, none, none, none, none, none, none, "Task", "Major", none, none, none⟩

/-- Parsed CLI arguments for a template-create invocation of template
`rel` with suffix `R1` — and with `--priority Blocker` on the command
line. -/
def argsWcreate : Args :=
  ⟨"template-create", "https://issues.redhat.com", none, none, none, none, none,
   some "R1", none, none, none, none, none, none, none, "Task", "Blocker", none, none,
   some "rel"⟩

/-! # Supporting lemmas -/

theorem createdFields_append (a b : List RemoteCall) :
    createdFields (a ++ b) = createdFields a ++ createdFields b := by
  simp [createdFields]

theorem countCreates_append (a b : List RemoteCall) :
    countCreates (a ++ b) = countCreates a + countCreates b := by
  simp [countCreates, createdFields_append]

theorem createdFields_cons_create (f : List (String × FieldVal))
    (l : List RemoteCall) :
    createdFields (RemoteCall.createIssue f :: l) = f :: createdFields l := by
  simp [createdFields]

theorem createdFields_epicLinkCalls (it : String) (par : Option String) (k : String) :
    createdFields (epicLinkCalls it par k) = [] := by
  cases par with
  | none => simp [epicLinkCalls, createdFields]
  | some p =>
    by_cases h : it = ISSUE_TYPE_SUBTASK <;> simp [epicLinkCalls, createdFields, h]

theorem doIssueCreate_ok (o : Oracle) (t : Trace) (project : Option String)
    (issuetype : String) (parent : Option String) (priority : String)
    (summary description assignee : Option String)
    (components labels : Option (List String)) (k : String)
    (hc : o.createRes (countCreates t.calls) = Except.ok k)
    (he : ∀ n, o.epicRes n = Except.ok ()) :
    doIssueCreate o t project issuetype parent priority summary description assignee components labels
      = (⟨t.calls ++ (RemoteCall.createIssue (buildFields project issuetype parent
            priority summary description assignee components labels)
            :: epicLinkCalls issuetype parent k), t.printed⟩, Except.ok k) := by
  cases parent with
  | none => simp [doIssueCreate, epicLinkCalls, hc]
  | some p =>
    by_cases hty : issuetype = ISSUE_TYPE_SUBTASK <;>
      simp [doIssueCreate, epicLinkCalls, hc, he, hty]

theorem doIssueCreate_createdFields (o : Oracle) (t : Trace) (project : Option String)
    (issuetype : String) (parent : Option String) (priority : String)
    (summary description assignee : Option String)
    (components labels : Option (List String)) :
    createdFields (doIssueCreate o t project issuetype parent priority summary
        description assignee components labels).1.calls
      = createdFields t.calls ++ [buildFields project issuetype parent priority
          summary description assignee components labels] := by
  cases hc : o.createRes (countCreates t.calls) with
  | error e => simp [doIssueCreate, hc, createdFields_append, createdFields]
  | ok k =>
    cases parent with
    | none => simp [doIssueCreate, hc, createdFields_append, createdFields]
    | some p =>
      by_cases hty : issuetype = ISSUE_TYPE_SUBTASK
      · simp [doIssueCreate, hc, hty, createdFields_append, createdFields]
      · cases he : o.epicRes (countEpicLinks (t.calls ++ [RemoteCall.createIssue
          (buildFields project issuetype (some p) priority summary description
            assignee components labels)])) <;>
          simp [doIssueCreate, hc, hty, he, createdFields_append, createdFields]

theorem childDescStep_ok (pyFmt : PyFmt) (c : ChildDef) (sfx : String)
    (hf : ∀ s a, ∃ r, pyFmt s a = Except.ok r) :
    childDescStep pyFmt c sfx = Except.ok (childDescriptionOk pyFmt c sfx) := by
  unfold childDescStep childDescriptionOk
  cases h : strContains c.description "%s" with
  | false => simp [h]
  | true =>
    obtain ⟨r, hr⟩ := hf c.description (some sfx)
    simp [h, hr]

theorem countCreates_snoc_create (calls : List RemoteCall)
    (f : List (String × FieldVal)) (extra : List RemoteCall)
    (hextra : createdFields extra = []) :
    countCreates (calls ++ RemoteCall.createIssue f :: extra)
      = countCreates calls + 1 := by
  have h1 : createdFields (RemoteCall.createIssue f :: extra)
      = f :: createdFields extra := by
    simp [createdFields]
  rw [countCreates, createdFields_append, h1, hextra]
  simp [countCreates]

theorem templateChildLoop_ok (o : Oracle) (pyFmt : PyFmt)
    (project sfx assignee pk : String) (keyOf : Nat → String)
    (hc : ∀ n, o.createRes n = Except.ok (keyOf n))
    (he : ∀ n, o.epicRes n = Except.ok ())
    (hf : ∀ s a, ∃ r, pyFmt s a = Except.ok r) :
    ∀ (cs : List ChildDef) (t : Trace),
      templateChildLoop o pyFmt project (some sfx) assignee pk t cs
        = (⟨t.calls ++ expectedChildCalls pyFmt project sfx assignee pk keyOf
              (countCreates t.calls) cs, t.printed⟩, Except.ok ())
  | [], t => by simp [templateChildLoop, expectedChildCalls]
  | c :: cs, t => by
    simp only [templateChildLoop,
      childDescStep_ok pyFmt c sfx hf,
      doIssueCreate_ok o t (some project) c.type (some pk) PRIORITY_MAJOR
        (some (c.summary ++ ": " ++ sfx))
        (some (sopAppend (childDescriptionOk pyFmt c sfx) c.sop))
        (some assignee) c.components c.labels (keyOf (countCreates t.calls))
        (hc (countCreates t.calls)) he,
      templateChildLoop_ok o pyFmt project sfx assignee pk keyOf hc he hf cs]
    rw [countCreates_snoc_create _ _ _ (createdFields_epicLinkCalls _ _ _)]
    simp [expectedChildCalls, childFields, List.append_assoc]

theorem doTemplateCreateRest_ok (o : Oracle) (pyFmt : PyFmt) (t : Trace)
    (project : String) (sfx : String) (assignee : String) (parent : ParentDef)
    (summary description : String) (keyOf : Nat → String)
    (hc : ∀ n, o.createRes n = Except.ok (keyOf n))
    (he : ∀ n, o.epicRes n = Except.ok ())
    (hf : ∀ s a, ∃ r, pyFmt s a = Except.ok r) :
    doTemplateCreateRest o pyFmt t project (some sfx) assignee parent summary description
      = (⟨t.calls ++ RemoteCall.createIssue (buildFields (some project) parent.type
            none PRIORITY_MAJOR (some summary) (some description) (some assignee)
            parent.components parent.labels)
            :: expectedChildCalls pyFmt project sfx assignee
                 (keyOf (countCreates t.calls)) keyOf (countCreates t.calls + 1)
                 parent.children,
          t.printed⟩, Except.ok (keyOf (countCreates t.calls))) := by
  simp only [doTemplateCreateRest,
    doIssueCreate_ok o t (some project) parent.type none PRIORITY_MAJOR
      (some summary) (some description) (some assignee) parent.components
      parent.labels (keyOf (countCreates t.calls)) (hc (countCreates t.calls)) he,
    templateChildLoop_ok o pyFmt project sfx assignee
      (keyOf (countCreates t.calls)) keyOf hc he hf parent.children]
  rw [countCreates_snoc_create _ _ _ (createdFields_epicLinkCalls _ _ _)]
  simp [epicLinkCalls, List.append_assoc]

theorem createdFields_uniqueCheckCalls (parent : ParentDef) (q : String) :
    createdFields (uniqueCheckCalls parent q) = [] := by
  unfold uniqueCheckCalls
  cases parent.be_unique with
  | none => simp [createdFields]
  | some b => cases b <;> simp [createdFields]

theorem createdFields_expectedChildCalls (pyFmt : PyFmt)
    (project sfx assignee pk : String) (keyOf : Nat → String) :
    ∀ (i : Nat) (cs : List ChildDef),
      createdFields (expectedChildCalls pyFmt project sfx assignee pk keyOf i cs)
        = cs.map (childFields pyFmt project sfx assignee pk)
  | _, [] => by simp [expectedChildCalls, createdFields]
  | i, c :: cs => by
    rw [expectedChildCalls, createdFields_append, createdFields_cons_create,
      createdFields_epicLinkCalls,
      createdFields_expectedChildCalls pyFmt project sfx assignee pk keyOf (i + 1) cs]
    simp

theorem mem_epicLink_expectedChildCalls (pyFmt : PyFmt)
    (project sfx assignee pk : String) (keyOf : Nat → String) :
    ∀ (i : Nat) (cs : List ChildDef) (c : ChildDef), c ∈ cs →
      c.type ≠ ISSUE_TYPE_SUBTASK →
      ∃ k, RemoteCall.addIssuesToEpic pk [k]
        ∈ expectedChildCalls pyFmt project sfx assignee pk keyOf i cs
  | i, c' :: cs, c, hmem, hty => by
    rcases List.mem_cons.mp hmem with rfl | hmem2
    · refine ⟨keyOf i, ?_⟩
      simp [expectedChildCalls, epicLinkCalls, hty]
    · obtain ⟨k, hk⟩ := mem_epicLink_expectedChildCalls pyFmt project sfx assignee
        pk keyOf (i + 1) cs c hmem2 hty
      refine ⟨k, ?_⟩
      simp [expectedChildCalls]
      right
      exact hk

theorem childFields_lookup_parent (pyFmt : PyFmt)
    (project sfx assignee pk : String) (c : ChildDef) :
    (childFields pyFmt project sfx assignee pk c).lookup "parent"
      = (if c.type = ISSUE_TYPE_SUBTASK then some (FieldVal.keyObj (some pk))
         else none) := by
  by_cases hty : c.type = ISSUE_TYPE_SUBTASK
  · rw [if_pos hty]
    cases hcs : c.components <;> cases hls : c.labels <;>
      simp [childFields, buildFields, List.lookup, hty, hcs, hls,
        ISSUE_TYPE_SUBTASK, ISSUE_TYPE_EPIC]
  · rw [if_neg hty]
    by_cases hE : c.type = ISSUE_TYPE_EPIC <;>
      cases hcs : c.components <;> cases hls : c.labels <;>
        simp [childFields, buildFields, List.lookup, hty, hE, hcs, hls]

theorem buildFields_lookup_priority (project : Option String) (issuetype : String)
    (parent : Option String) (priority : String)
    (summary description assignee : Option String)
    (components labels : Option (List String)) :
    (buildFields project issuetype parent priority summary description assignee
        components labels).lookup "priority"
      = some (FieldVal.nameObj (some priority)) := by
  cases description <;> cases components <;> cases labels <;> cases parent <;>
    simp [buildFields, List.lookup]

theorem templateChildLoop_priority (o : Oracle) (pyFmt : PyFmt)
    (project : String) (suffix : Option String) (assignee pk : String) :
    ∀ (cs : List ChildDef) (t : Trace),
      (∀ f ∈ createdFields t.calls,
        f.lookup "priority" = some (FieldVal.nameObj (some PRIORITY_MAJOR))) →
      ∀ f ∈ createdFields (templateChildLoop o pyFmt project suffix assignee pk t cs).1.calls,
        f.lookup "priority" = some (FieldVal.nameObj (some PRIORITY_MAJOR))
  | [], t, ht => by simpa [templateChildLoop] using ht
  | c :: cs, t, ht => by
    cases suffix with
    | none => simpa [templateChildLoop] using ht
    | some sfx =>
      cases hd : childDescStep pyFmt c sfx with
      | error e =>
        simp only [templateChildLoop, hd]
        simpa using ht
      | ok d =>
        cases hdo : doIssueCreate o t (some project) c.type (some pk) PRIORITY_MAJOR
          (some (c.summary ++ ": " ++ sfx)) (some (sopAppend d c.sop))
          (some assignee) c.components c.labels with
        | mk t1 res =>
          have ht1 : ∀ f ∈ createdFields t1.calls,
              f.lookup "priority" = some (FieldVal.nameObj (some PRIORITY_MAJOR)) := by
            have heq := doIssueCreate_createdFields o t (some project) c.type (some pk)
              PRIORITY_MAJOR (some (c.summary ++ ": " ++ sfx)) (some (sopAppend d c.sop))
              (some assignee) c.components c.labels
            rw [hdo] at heq
            intro f hf
            rw [heq] at hf
            rcases List.mem_append.mp hf with h | h
            · exact ht f h
            · rw [List.mem_singleton.mp h]
              exact buildFields_lookup_priority _ _ _ _ _ _ _ _ _
          cases res with
          | error term =>
            simp only [templateChildLoop, hd, hdo]
            simpa using ht1
          | ok k =>
            simp only [templateChildLoop, hd, hdo]
            simpa using templateChildLoop_priority o pyFmt project (some sfx)
              assignee pk cs t1 ht1

theorem doTemplateCreateRest_priority (o : Oracle) (pyFmt : PyFmt) (t : Trace)
    (project : String) (suffix : Option String) (assignee : String)
    (parent : ParentDef) (summary description : String)
    (ht : ∀ f ∈ createdFields t.calls,
      f.lookup "priority" = some (FieldVal.nameObj (some PRIORITY_MAJOR))) :
    ∀ f ∈ createdFields (doTemplateCreateRest o pyFmt t project suffix assignee
        parent summary description).1.calls,
      f.lookup "priority" = some (FieldVal.nameObj (some PRIORITY_MAJOR)) := by
  cases hdo : doIssueCreate o t (some project) parent.type none PRIORITY_MAJOR
    (some summary) (some description) (some assignee) parent.components
    parent.labels with
  | mk t1 res =>
    have ht1 : ∀ f ∈ createdFields t1.calls,
        f.lookup "priority" = some (FieldVal.nameObj (some PRIORITY_MAJOR)) := by
      have heq := doIssueCreate_createdFields o t (some project) parent.type none
        PRIORITY_MAJOR (some summary) (some description) (some assignee)
        parent.components parent.labels
      rw [hdo] at heq
      intro f hf
      rw [heq] at hf
      rcases List.mem_append.mp hf with h | h
      · exact ht f h
      · rw [List.mem_singleton.mp h]
        exact buildFields_lookup_priority _ _ _ _ _ _ _ _ _
    cases res with
    | error term =>
      simp only [doTemplateCreateRest, hdo]
      simpa using ht1
    | ok pk =>
      have ht2 := templateChildLoop_priority o pyFmt project suffix assignee pk
        parent.children t1 ht1
      cases hloop : templateChildLoop o pyFmt project suffix assignee pk t1
        parent.children with
      | mk t2 res2 =>
        rw [hloop] at ht2
        cases res2 with
        | error term =>
          simp only [doTemplateCreateRest, hdo, hloop]
          simpa using ht2
        | ok u =>
          simp only [doTemplateCreateRest, hdo, hloop]
          simpa using ht2

theorem doTemplateCreate_priority (o : Oracle) (pyFmt : PyFmt)
    (templates : List (String × Template)) (projectArg : Option String)
    (tid : Option String) (suffix assigneeArg : Option String) :
    ∀ f ∈ createdFields (doTemplateCreate o pyFmt templates ⟨[], []⟩ projectArg
        tid suffix assigneeArg).1.calls,
      f.lookup "priority" = some (FieldVal.nameObj (some PRIORITY_MAJOR)) := by
  cases tid with
  | none =>
    intro f hf
    simp [doTemplateCreate, createdFields] at hf
  | some s =>
    cases hlook : templates.lookup s with
    | none =>
      intro f hf
      simp [doTemplateCreate, hlook, createdFields] at hf
    | some tpl =>
      cases hproj : resolveProject projectArg tpl.parent with
      | none =>
        intro f hf
        simp [doTemplateCreate, hlook, hproj, createdFields] at hf
      | some proj =>
        cases hbu : tpl.parent.be_unique with
        | none =>
          intro f hf
          refine doTemplateCreateRest_priority o pyFmt ⟨[], []⟩ proj suffix
            (assigneeArg.getD "") tpl.parent (parentSummary tpl.parent suffix)
            (parentDescription pyFmt tpl.parent suffix) ?_ f ?_
          · intro g hg
            simp [createdFields] at hg
          · simpa [doTemplateCreate, hlook, hproj, hbu] using hf
        | some b =>
          cases b with
          | false =>
            intro f hf
            refine doTemplateCreateRest_priority o pyFmt ⟨[], []⟩ proj suffix
              (assigneeArg.getD "") tpl.parent (parentSummary tpl.parent suffix)
              (parentDescription pyFmt tpl.parent suffix) ?_ f ?_
            · intro g hg
              simp [createdFields] at hg
            · simpa [doTemplateCreate, hlook, hproj, hbu] using hf
          | true =>
            by_cases hnil : o.searchRes (searchQuery proj (parentSummary tpl.parent suffix)) = []
            · intro f hf
              refine doTemplateCreateRest_priority o pyFmt
                ⟨[RemoteCall.searchIssues (searchQuery proj (parentSummary tpl.parent suffix))], []⟩
                proj suffix (assigneeArg.getD "") tpl.parent
                (parentSummary tpl.parent suffix)
                (parentDescription pyFmt tpl.parent suffix) ?_ f ?_
              · intro g hg
                simp [createdFields] at hg
              · simpa [doTemplateCreate, hlook, hproj, hbu, hnil] using hf
            · intro f hf
              simp [doTemplateCreate, hlook, hproj, hbu, hnil, createdFields] at hf

/-! # Claim theorems -/

/-- C1, counterexample: on `label-remove` of a value not present on the
issue (current labels `["a"]`, removing `"b"`), the resulting
`ValueError` (the spec's ElementNotFoundError) is NOT caught at the
handler boundary: no `ERROR:` line is printed and the handler does not
terminate via `sys.exit(1)` — the exception propagates uncaught. -/
theorem C1_error_policy_counterexample :
    (doLabelManage (Except.ok ["a"]) (Except.ok ()) (some ["b"]) ACTION_REMOVE).term
      = Term.uncaught PyExc.valueError ∧
    (doLabelManage (Except.ok ["a"]) (Except.ok ()) (some ["b"]) ACTION_REMOVE).printed
      = [] ∧
    (doLabelManage (Except.ok ["a"]) (Except.ok ()) (some ["b"]) ACTION_REMOVE).term
      ≠ Term.exited 1 := by
  decide

/-- C1, amended: in the component/label handlers, every validation or
API error is caught, printed as a single line beginning with `ERROR:`
(carrying the most specific message) and terminates via exit code 1 —
EXCEPT ElementNotFoundError: removing an absent value raises a
`ValueError` that the handler's `except JIRAError` does not catch, so it
propagates uncaught with no `ERROR:` line (the interpreter's default
handling of the uncaught exception then ends the process). -/
theorem C1_error_policy_amended (fetch : Except String (List String))
    (upd : Except String Unit) (arg : Option (List String)) (action : String) :
    ((doLabelManage fetch upd arg action).term = Term.normal ∨
     ((doLabelManage fetch upd arg action).term = Term.exited 1 ∧
      ∃ rest, (doLabelManage fetch upd arg action).printed = ["ERROR:" ++ rest]) ∨
     ((doLabelManage fetch upd arg action).term = Term.uncaught PyExc.valueError ∧
      (doLabelManage fetch upd arg action).printed = [] ∧
      action = ACTION_REMOVE ∧
      ∃ vals cur, arg = some vals ∧ fetch = Except.ok cur ∧
        pyListRemoveAll cur vals = none)) ∧
    ((doComponentManage fetch upd arg action).term = Term.normal ∨
     ((doComponentManage fetch upd arg action).term = Term.exited 1 ∧
      ∃ rest, (doComponentManage fetch upd arg action).printed = ["ERROR:" ++ rest]) ∨
     ((doComponentManage fetch upd arg action).term = Term.uncaught PyExc.valueError ∧
      (doComponentManage fetch upd arg action).printed = [] ∧
      action = ACTION_REMOVE ∧
      ∃ vals cur, arg = some vals ∧ fetch = Except.ok cur ∧
        pyListRemoveAll cur vals = none)) := by
  constructor
  · cases arg with
    | none =>
      refine Or.inr (Or.inl ⟨?_, " A valid label value must be specified.", ?_⟩) <;>
        simp [doLabelManage]
    | some vals =>
      cases fetch with
      | error msg =>
        refine Or.inr (Or.inl ⟨?_, " Failed to manage issue labels: " ++ msg, ?_⟩) <;>
          simp [doLabelManage, ← String.append_assoc]
      | ok cur =>
        by_cases hrem : action = ACTION_REMOVE
        · subst hrem
          cases hr : pyListRemoveAll cur vals with
          | none =>
            refine Or.inr (Or.inr ⟨?_, ?_, rfl, vals, cur, rfl, rfl, hr⟩) <;>
              simp [doLabelManage, ACTION_REMOVE, ACTION_ADD, hr]
          | some ns =>
            cases upd with
            | ok _ =>
              refine Or.inl ?_
              simp [doLabelManage, ACTION_REMOVE, ACTION_ADD, hr]
            | error msg =>
              refine Or.inr (Or.inl ⟨?_, " Failed to manage issue labels: " ++ msg, ?_⟩) <;>
                simp [doLabelManage, ACTION_REMOVE, ACTION_ADD, hr, ← String.append_assoc]
        · cases upd with
          | ok _ =>
            refine Or.inl ?_
            simp [doLabelManage, hrem]
          | error msg =>
            refine Or.inr (Or.inl ⟨?_, " Failed to manage issue labels: " ++ msg, ?_⟩) <;>
              simp [doLabelManage, hrem, ← String.append_assoc]
  · cases arg with
    | none =>
      refine Or.inr (Or.inl ⟨?_, " A valid component value must be specified.", ?_⟩) <;>
        simp [doComponentManage]
    | some vals =>
      cases fetch with
      | error msg =>
        refine Or.inr (Or.inl ⟨?_, " Failed to manage issue components: " ++ msg, ?_⟩) <;>
          simp [doComponentManage, ← String.append_assoc]
      | ok cur =>
        by_cases hrem : action = ACTION_REMOVE
        · subst hrem
          cases hr : pyListRemoveAll cur vals with
          | none =>
            refine Or.inr (Or.inr ⟨?_, ?_, rfl, vals, cur, rfl, rfl, hr⟩) <;>
              simp [doComponentManage, ACTION_REMOVE, ACTION_ADD, hr]
          | some ns =>
            cases upd with
            | ok _ =>
              refine Or.inl ?_
              simp [doComponentManage, ACTION_REMOVE, ACTION_ADD, hr]
            | error msg =>
              refine Or.inr (Or.inl ⟨?_, " Failed to manage issue components: " ++ msg, ?_⟩) <;>
                simp [doComponentManage, ACTION_REMOVE, ACTION_ADD, hr, ← String.append_assoc]
        · cases upd with
          | ok _ =>
            refine Or.inl ?_
            simp [doComponentManage, hrem]
          | error msg =>
            refine Or.inr (Or.inl ⟨?_, " Failed to manage issue components: " ++ msg, ?_⟩) <;>
              simp [doComponentManage, hrem, ← String.append_assoc]

/-- C2: for component-add/remove and label-add/remove with the current
list fetched successfully, the remote writes are exactly: none when the
local list computation fails (removal of an absent value), and a single
whole-list overwrite carrying the computed list when it succeeds. -/
theorem C2_single_remote_write (cur vals : List String)
    (updC updL : Except String Unit) (action : String)
    (h : action = ACTION_ADD ∨ action = ACTION_REMOVE) :
    (doComponentManage (Except.ok cur) updC (some vals) action).writes =
      (match (if action = ACTION_REMOVE then pyListRemoveAll cur vals
              else some (cur ++ vals)) with
       | none => []
       | some ns => [ns]) ∧
    (doLabelManage (Except.ok cur) updL (some vals) action).writes =
      (match (if action = ACTION_REMOVE then pyListRemoveAll cur vals
              else some (cur ++ vals)) with
       | none => []
       | some ns => [ns]) := by
  obtain rfl | rfl := h
  · cases updC <;> cases updL <;>
      simp [doComponentManage, doLabelManage, ACTION_ADD, ACTION_REMOVE]
  · cases hr : pyListRemoveAll cur vals <;> cases updC <;> cases updL <;>
      simp [doComponentManage, doLabelManage, ACTION_ADD, ACTION_REMOVE, hr]

/-- C2, witness: removing `"b"` from an issue whose fetched component and
label lists are `["a"]` fails locally and performs no remote write. -/
theorem C2_single_remote_write_witness :
    (doComponentManage (Except.ok ["a"]) (Except.ok ()) (some ["b"]) ACTION_REMOVE).writes
      = [] ∧
    (doLabelManage (Except.ok ["a"]) (Except.ok ()) (some ["b"]) ACTION_REMOVE).writes
      = [] :=
  C2_single_remote_write ["a"] ["b"] (Except.ok ()) (Except.ok ())
    ACTION_REMOVE (Or.inr rfl)

/-- C3: on issue-create with a parent supplied, a Sub-task carries the
parent key inside the creation payload and no epic-link call is made; any
other type makes exactly one epic-link call, after (and only after) the
create call has succeeded. -/
theorem C3_parent_handling (o : Oracle) (project : Option String)
    (issuetype : String) (p : String) (priority : String)
    (summary description assignee : Option String)
    (components labels : Option (List String)) :
    (issuetype = ISSUE_TYPE_SUBTASK →
      (buildFields project issuetype (some p) priority summary description assignee components labels).lookup "parent"
        = some (FieldVal.keyObj (some p)) ∧
      (doIssueCreate o ⟨[], []⟩ project issuetype (some p) priority summary description assignee components labels).1.calls
        = [RemoteCall.createIssue (buildFields project issuetype (some p) priority summary description assignee components labels)] ∧
      countEpicLinks (doIssueCreate o ⟨[], []⟩ project issuetype (some p) priority summary description assignee components labels).1.calls = 0) ∧
    (issuetype ≠ ISSUE_TYPE_SUBTASK →
      (∀ k, o.createRes 0 = Except.ok k →
        (doIssueCreate o ⟨[], []⟩ project issuetype (some p) priority summary description assignee components labels).1.calls
          = [RemoteCall.createIssue (buildFields project issuetype (some p) priority summary description assignee components labels),
             RemoteCall.addIssuesToEpic p [k]] ∧
        countEpicLinks (doIssueCreate o ⟨[], []⟩ project issuetype (some p) priority summary description assignee components labels).1.calls = 1) ∧
      (∀ e, o.createRes 0 = Except.error e →
        (doIssueCreate o ⟨[], []⟩ project issuetype (some p) priority summary description assignee components labels).1.calls
          = [RemoteCall.createIssue (buildFields project issuetype (some p) priority summary description assignee components labels)] ∧
        countEpicLinks (doIssueCreate o ⟨[], []⟩ project issuetype (some p) priority summary description assignee components labels).1.calls = 0)) := by
  constructor
  · intro h
    refine ⟨?_, ?_⟩
    · subst h
      cases description <;> cases components <;> cases labels <;>
        simp [buildFields, List.lookup, ISSUE_TYPE_SUBTASK, ISSUE_TYPE_EPIC]
    · cases hc : o.createRes 0 <;>
        simp [doIssueCreate, countCreates, createdFields, countEpicLinks, hc, h]
  · intro h
    constructor
    · intro k hc
      cases he : o.epicRes 0 <;>
        simp [doIssueCreate, countCreates, createdFields, countEpicLinks, hc, he, h]
    · intro e hc
      simp [doIssueCreate, countCreates, createdFields, countEpicLinks, hc, h]

/-- C3, witness: creating a `Task` with parent `EPIC-9` against an oracle
whose create succeeds with key `NEW-1` performs the create call followed
by exactly one epic-link call. -/
theorem C3_parent_handling_witness :
    (doIssueCreate oW ⟨[], []⟩ (some "ACME") "Task" (some "EPIC-9") "Major"
        (some "S") none (some "me") none none).1.calls
      = [RemoteCall.createIssue (buildFields (some "ACME") "Task" (some "EPIC-9")
          "Major" (some "S") none (some "me") none none),
         RemoteCall.addIssuesToEpic "EPIC-9" ["NEW-1"]] ∧
    countEpicLinks (doIssueCreate oW ⟨[], []⟩ (some "ACME") "Task" (some "EPIC-9")
        "Major" (some "S") none (some "me") none none).1.calls = 1 :=
  ((C3_parent_handling oW (some "ACME") "Task" "EPIC-9" "Major" (some "S") none
    (some "me") none none).2 (by decide)).1 "NEW-1" rfl

/-- C5: every create payload contains the project, issue type, priority,
summary and assignee fields, and contains the description, components and
labels fields exactly when those inputs were supplied. -/
theorem C5_create_payload (project : Option String) (issuetype : String)
    (parent : Option String) (priority : String)
    (summary description assignee : Option String)
    (components labels : Option (List String)) :
    (buildFields project issuetype parent priority summary description assignee components labels).lookup "project" = some (FieldVal.keyObj project) ∧
    (buildFields project issuetype parent priority summary description assignee components labels).lookup "issuetype" = some (FieldVal.nameObj (some issuetype)) ∧
    (buildFields project issuetype parent priority summary description assignee components labels).lookup "priority" = some (FieldVal.nameObj (some priority)) ∧
    (buildFields project issuetype parent priority summary description assignee components labels).lookup "summary" = some (FieldVal.str summary) ∧
    (buildFields project issuetype parent priority summary description assignee components labels).lookup "assignee" = some (FieldVal.nameObj assignee) ∧
    (((buildFields project issuetype parent priority summary description assignee components labels).lookup "description").isSome ↔ description.isSome) ∧
    (((buildFields project issuetype parent priority summary description assignee components labels).lookup "components").isSome ↔ components.isSome) ∧
    (((buildFields project issuetype parent priority summary description assignee components labels).lookup "labels").isSome ↔ labels.isSome) := by
  cases description <;> cases components <;> cases labels <;> cases parent <;>
    simp [buildFields, List.lookup]

/-- C7: when a non-Sub-task is created with a parent, the create call
succeeds and the epic-link call fails, the run prints an error line,
exits with code 1, and has performed exactly the create and the failed
epic-link call — in particular no delete call: the created issue is left
orphaned. -/
theorem C7_no_rollback (o : Oracle) (project : Option String)
    (issuetype : String) (p : String) (priority : String)
    (summary description assignee : Option String)
    (components labels : Option (List String)) (k e : String)
    (hty : issuetype ≠ ISSUE_TYPE_SUBTASK)
    (hc : o.createRes 0 = Except.ok k)
    (he : o.epicRes 0 = Except.error e) :
    (doIssueCreate o ⟨[], []⟩ project issuetype (some p) priority summary description assignee components labels).2
      = Except.error (Term.exited 1) ∧
    (doIssueCreate o ⟨[], []⟩ project issuetype (some p) priority summary description assignee components labels).1.printed
      = ["ERROR: Could not link issue to epic: " ++ e] ∧
    (doIssueCreate o ⟨[], []⟩ project issuetype (some p) priority summary description assignee components labels).1.calls
      = [RemoteCall.createIssue (buildFields project issuetype (some p) priority summary description assignee components labels),
         RemoteCall.addIssuesToEpic p [k]] ∧
    (∀ key, RemoteCall.deleteIssue key
      ∉ (doIssueCreate o ⟨[], []⟩ project issuetype (some p) priority summary description assignee components labels).1.calls) := by
  refine ⟨?_, ?_, ?_, ?_⟩ <;>
    simp [doIssueCreate, countCreates, createdFields, countEpicLinks, hc, he, hty]

/-- C7, witness: a concrete orphaned-creation run — create of a `Task`
under parent `EPIC-9` succeeds with key `NEW-1`, the epic link fails with
message `boom`, and the two calls (and no delete) were made. -/
theorem C7_no_rollback_witness :
    (doIssueCreate oWepicFail ⟨[], []⟩ (some "ACME") "Task" (some "EPIC-9") "Major"
        (some "S") none (some "me") none none).2
      = Except.error (Term.exited 1) ∧
    (doIssueCreate oWepicFail ⟨[], []⟩ (some "ACME") "Task" (some "EPIC-9") "Major"
        (some "S") none (some "me") none none).1.printed
      = ["ERROR: Could not link issue to epic: " ++ "boom"] ∧
    (doIssueCreate oWepicFail ⟨[], []⟩ (some "ACME") "Task" (some "EPIC-9") "Major"
        (some "S") none (some "me") none none).1.calls
      = [RemoteCall.createIssue (buildFields (some "ACME") "Task" (some "EPIC-9")
          "Major" (some "S") none (some "me") none none),
         RemoteCall.addIssuesToEpic "EPIC-9" ["NEW-1"]] ∧
    (∀ key, RemoteCall.deleteIssue key
      ∉ (doIssueCreate oWepicFail ⟨[], []⟩ (some "ACME") "Task" (some "EPIC-9") "Major"
          (some "S") none (some "me") none none).1.calls) :=
  C7_no_rollback oWepicFail (some "ACME") "Task" "EPIC-9" "Major" (some "S") none
    (some "me") none none "NEW-1" "boom" (by decide) rfl rfl

/-- C10: label-add and component-add write back the fetched current list
with the supplied values appended in order, with no duplicate check —
adding an already-present value yields a written list containing it at
least twice. -/
theorem C10_add_no_dedup (cur vals : List String) (updC updL : Except String Unit) :
    (doComponentManage (Except.ok cur) updC (some vals) ACTION_ADD).writes
      = [cur ++ vals] ∧
    (doLabelManage (Except.ok cur) updL (some vals) ACTION_ADD).writes
      = [cur ++ vals] ∧
    (∀ v, v ∈ cur → v ∈ vals → 2 ≤ (cur ++ vals).count v) := by
  refine ⟨?_, ?_, ?_⟩
  · cases updC <;> simp [doComponentManage, ACTION_ADD, ACTION_REMOVE]
  · cases updL <;> simp [doLabelManage, ACTION_ADD, ACTION_REMOVE]
  · intro v hc hv
    have h1 : 1 ≤ cur.count v := List.one_le_count_iff.mpr hc
    have h2 : 1 ≤ vals.count v := List.one_le_count_iff.mpr hv
    rw [List.count_append]
    omega

/-- C10, witness: adding label/component `"x"` to an issue already
carrying `"x"` writes the list `["x", "x"]`, containing the value twice. -/
theorem C10_add_no_dedup_witness :
    (doComponentManage (Except.ok ["x"]) (Except.ok ()) (some ["x"]) ACTION_ADD).writes
      = [["x", "x"]] ∧
    (doLabelManage (Except.ok ["x"]) (Except.ok ()) (some ["x"]) ACTION_ADD).writes
      = [["x", "x"]] ∧
    2 ≤ (["x"] ++ ["x"]).count "x" :=
  ⟨(C10_add_no_dedup ["x"] ["x"] (Except.ok ()) (Except.ok ())).1,
   (C10_add_no_dedup ["x"] ["x"] (Except.ok ()) (Except.ok ())).2.1,
   (C10_add_no_dedup ["x"] ["x"] (Except.ok ()) (Except.ok ())).2.2 "x"
     (by decide) (by decide)⟩

/-- C4: template-create with suffix `R1` on a template whose parent
summary is `Release Checklist` (against an oracle on which every remote
call succeeds and no uniqueness pre-check short-circuits) creates a
parent whose payload summary is `Release Checklist: R1`, and with N
children creates exactly 1 + N issues; each child create call carries the
newly created parent's key `keyOf 0` as its parent reference — in the
payload's parent field for Sub-task children, via an epic-link call to
that key for all others (visible in the exact call trace). -/
theorem C4_template_expansion (o : Oracle) (pyFmt : PyFmt)
    (templates : List (String × Template)) (tid : String) (tpl : Template)
    (projectArg : Option String) (proj : String) (assigneeArg : Option String)
    (keyOf : Nat → String)
    (hlook : templates.lookup tid = some tpl)
    (hsum : tpl.parent.summary = "Release Checklist")
    (hproj : resolveProject projectArg tpl.parent = some proj)
    (hc : ∀ n, o.createRes n = Except.ok (keyOf n))
    (he : ∀ n, o.epicRes n = Except.ok ())
    (hf : ∀ s a, ∃ r, pyFmt s a = Except.ok r)
    (hnodup : tpl.parent.be_unique ≠ some true ∨
      o.searchRes (searchQuery proj "Release Checklist: R1") = []) :
    (doTemplateCreate o pyFmt templates ⟨[], []⟩ projectArg (some tid) (some "R1") assigneeArg).2
      = Except.ok (keyOf 0) ∧
    (parentFields pyFmt proj (some "R1") (assigneeArg.getD "") tpl.parent).lookup "summary"
      = some (FieldVal.str (some "Release Checklist: R1")) ∧
    (doTemplateCreate o pyFmt templates ⟨[], []⟩ projectArg (some tid) (some "R1") assigneeArg).1.calls
      = uniqueCheckCalls tpl.parent (searchQuery proj "Release Checklist: R1")
        ++ RemoteCall.createIssue (parentFields pyFmt proj (some "R1") (assigneeArg.getD "") tpl.parent)
        :: expectedChildCalls pyFmt proj "R1" (assigneeArg.getD "") (keyOf 0) keyOf 1 tpl.parent.children ∧
    countCreates (doTemplateCreate o pyFmt templates ⟨[], []⟩ projectArg (some tid) (some "R1") assigneeArg).1.calls
      = 1 + tpl.parent.children.length ∧
    createdFields (doTemplateCreate o pyFmt templates ⟨[], []⟩ projectArg (some tid) (some "R1") assigneeArg).1.calls
      = parentFields pyFmt proj (some "R1") (assigneeArg.getD "") tpl.parent
        :: tpl.parent.children.map (childFields pyFmt proj "R1" (assigneeArg.getD "") (keyOf 0)) ∧
    (∀ c ∈ tpl.parent.children,
      (childFields pyFmt proj "R1" (assigneeArg.getD "") (keyOf 0) c).lookup "parent"
        = (if c.type = ISSUE_TYPE_SUBTASK then some (FieldVal.keyObj (some (keyOf 0))) else none) ∧
      (c.type ≠ ISSUE_TYPE_SUBTASK → ∃ k, RemoteCall.addIssuesToEpic (keyOf 0) [k]
        ∈ (doTemplateCreate o pyFmt templates ⟨[], []⟩ projectArg (some tid) (some "R1") assigneeArg).1.calls)) := by
  have hps : parentSummary tpl.parent (some "R1") = "Release Checklist: R1" := by
    simp only [parentSummary]
    rw [hsum]
    decide
  have hrest := doTemplateCreateRest_ok o pyFmt ⟨[], []⟩ proj "R1" (assigneeArg.getD "")
    tpl.parent "Release Checklist: R1" (parentDescription pyFmt tpl.parent (some "R1"))
    keyOf hc he hf
  have hrest1 := doTemplateCreateRest_ok o pyFmt
    ⟨[RemoteCall.searchIssues (searchQuery proj "Release Checklist: R1")], []⟩ proj "R1"
    (assigneeArg.getD "") tpl.parent "Release Checklist: R1"
    (parentDescription pyFmt tpl.parent (some "R1")) keyOf hc he hf
  have hmain : doTemplateCreate o pyFmt templates ⟨[], []⟩ projectArg (some tid) (some "R1") assigneeArg
      = (⟨uniqueCheckCalls tpl.parent (searchQuery proj "Release Checklist: R1")
            ++ RemoteCall.createIssue (parentFields pyFmt proj (some "R1") (assigneeArg.getD "") tpl.parent)
            :: expectedChildCalls pyFmt proj "R1" (assigneeArg.getD "") (keyOf 0) keyOf 1 tpl.parent.children,
          []⟩, Except.ok (keyOf 0)) := by
    cases hbu : tpl.parent.be_unique with
    | none =>
      simp only [doTemplateCreate, hlook, hproj, hbu, hps, hrest]
      simp [uniqueCheckCalls, hbu, parentFields, hps, countCreates, createdFields]
    | some b =>
      cases b with
      | false =>
        simp only [doTemplateCreate, hlook, hproj, hbu, hps, hrest]
        simp [uniqueCheckCalls, hbu, parentFields, hps, countCreates, createdFields]
      | true =>
        have hsr : o.searchRes (searchQuery proj "Release Checklist: R1") = [] := by
          rcases hnodup with h | h
          · exact absurd hbu h
          · exact h
        have hlen : ¬ (o.searchRes (searchQuery proj (parentSummary tpl.parent (some "R1")))).length ≠ 0 := by
          rw [hps, hsr]
          simp
        simp only [doTemplateCreate, hlook, hproj, hbu, hps, if_neg hlen, hrest1]
        simp [uniqueCheckCalls, hbu, parentFields, hps, countCreates, createdFields, hsr, hrest1]
  have hcount0 : countCreates (uniqueCheckCalls tpl.parent (searchQuery proj "Release Checklist: R1")) = 0 := by
    rw [countCreates, createdFields_uniqueCheckCalls]
    rfl
  refine ⟨?_, ?_, ?_, ?_, ?_, ?_⟩
  · rw [hmain]
  · cases hcs : tpl.parent.components <;> cases hls : tpl.parent.labels <;>
      by_cases hE : tpl.parent.type = ISSUE_TYPE_EPIC <;>
        by_cases hS : tpl.parent.type = ISSUE_TYPE_SUBTASK <;>
          simp [parentFields, buildFields, List.lookup, hcs, hls, hE, hS, hps]
  · rw [hmain]
  · rw [hmain]
    simp only [countCreates_append, hcount0]
    rw [countCreates, createdFields_cons_create, createdFields_expectedChildCalls]
    simp [countCreates]
    omega
  · rw [hmain]
    rw [createdFields_append, createdFields_uniqueCheckCalls, createdFields_cons_create,
      createdFields_expectedChildCalls]
    simp
  · intro c hcmem
    refine ⟨childFields_lookup_parent pyFmt proj "R1" (assigneeArg.getD "") (keyOf 0) c, ?_⟩
    intro hty
    obtain ⟨k, hk⟩ := mem_epicLink_expectedChildCalls pyFmt proj "R1" (assigneeArg.getD "")
      (keyOf 0) keyOf 1 tpl.parent.children c hcmem hty
    refine ⟨k, ?_⟩
    rw [hmain]
    exact List.mem_append_right _ (List.mem_cons_of_mem _ hk)

/-- C4, witness: expanding template `rel` (two children) with suffix `R1`
returns the parent key `K-0`, puts summary `Release Checklist: R1` in the
parent payload, and creates 1 + 2 issues. -/
theorem C4_template_expansion_witness :
    (doTemplateCreate oWkeys pyFmtW catalogW ⟨[], []⟩ none (some "rel") (some "R1") none).2
      = Except.ok (keyOfW 0) ∧
    (parentFields pyFmtW "ACME" (some "R1") "" tplW.parent).lookup "summary"
      = some (FieldVal.str (some "Release Checklist: R1")) ∧
    countCreates (doTemplateCreate oWkeys pyFmtW catalogW ⟨[], []⟩ none (some "rel")
        (some "R1") none).1.calls = 1 + tplW.parent.children.length := by
  have h := C4_template_expansion oWkeys pyFmtW catalogW "rel" tplW none "ACME" none keyOfW
    rfl rfl rfl (fun n => rfl) (fun n => rfl) (fun s a => ⟨s, rfl⟩) (Or.inr rfl)
  exact ⟨h.1, h.2.1, h.2.2.2.1⟩

/-- C6: template-create on a template marked `be_unique` whose pre-check
search finds at least one existing issue performs zero create calls,
prints the keys of the existing matching issues, and exits with code 0. -/
theorem C6_unique_shortcircuit (o : Oracle) (pyFmt : PyFmt)
    (templates : List (String × Template)) (tid : String) (tpl : Template)
    (projectArg : Option String) (proj : String)
    (suffix assigneeArg : Option String)
    (hlook : templates.lookup tid = some tpl)
    (hu : tpl.parent.be_unique = some true)
    (hproj : resolveProject projectArg tpl.parent = some proj)
    (hfound : o.searchRes (searchQuery proj (parentSummary tpl.parent suffix)) ≠ []) :
    doTemplateCreate o pyFmt templates ⟨[], []⟩ projectArg (some tid) suffix assigneeArg
      = (⟨[RemoteCall.searchIssues (searchQuery proj (parentSummary tpl.parent suffix))],
          "Issue already exists with key(s): "
            :: o.searchRes (searchQuery proj (parentSummary tpl.parent suffix))⟩,
         Except.error (Term.exited 0)) ∧
    countCreates (doTemplateCreate o pyFmt templates ⟨[], []⟩ projectArg (some tid)
        suffix assigneeArg).1.calls = 0 := by
  have hlen : (o.searchRes (searchQuery proj (parentSummary tpl.parent suffix))).length ≠ 0 := by
    intro h
    exact hfound (List.length_eq_zero.mp h)
  have hmain : doTemplateCreate o pyFmt templates ⟨[], []⟩ projectArg (some tid) suffix assigneeArg
      = (⟨[RemoteCall.searchIssues (searchQuery proj (parentSummary tpl.parent suffix))],
          "Issue already exists with key(s): "
            :: o.searchRes (searchQuery proj (parentSummary tpl.parent suffix))⟩,
         Except.error (Term.exited 0)) := by
    simp only [doTemplateCreate, hlook, hproj, hu, if_pos hlen]
    simp
  refine ⟨hmain, ?_⟩
  rw [hmain]
  simp [countCreates, createdFields]

/-- C6, witness: expanding the must-be-unique template `rel` when the
search finds `OLD-1` performs only the search, prints the existing key,
exits 0, and creates zero issues. -/
theorem C6_unique_shortcircuit_witness :
    doTemplateCreate oWfound pyFmtW catalogW ⟨[], []⟩ none (some "rel") (some "R1") none
      = (⟨[RemoteCall.searchIssues (searchQuery "ACME" (parentSummary tplW.parent (some "R1")))],
          "Issue already exists with key(s): " :: ["OLD-1"]⟩,
         Except.error (Term.exited 0)) ∧
    countCreates (doTemplateCreate oWfound pyFmtW catalogW ⟨[], []⟩ none (some "rel")
        (some "R1") none).1.calls = 0 :=
  C6_unique_shortcircuit oWfound pyFmtW catalogW "rel" tplW none "ACME" (some "R1") none
    rfl rfl rfl (by decide)

/-- C8: a template-list run never reads the credentials file (it succeeds
for every `credsFile`, including `none`), prints the template identifier
list, and that list is the catalog's identifiers in sorted order. -/
theorem C8_template_list_no_creds (o : Oracle) (pyFmt : PyFmt) (credsFile : Option Creds)
    (catalog : List (String × Template)) (args : Args)
    (h : args.action = CMD_TEMPLATE_LIST) :
    mainRun o pyFmt credsFile catalog args
      = ⟨false, [], [pyReprStrList (doTemplateList catalog)], Term.normal⟩ ∧
    List.Sorted (fun a b => a ≤ b) (doTemplateList catalog) ∧
    (doTemplateList catalog).Perm (catalog.map Prod.fst) := by
  refine ⟨?_, ?_, ?_⟩
  · simp [mainRun, h]
  · exact List.sorted_insertionSort (fun a b => a ≤ b) (catalog.map Prod.fst)
  · exact List.perm_insertionSort (fun a b => a ≤ b) (catalog.map Prod.fst)

/-- C8, witness: a template-list run with no credentials file still
succeeds, reads no credentials and prints the sorted identifier list. -/
theorem C8_template_list_no_creds_witness :
    mainRun oWkeys pyFmtW none catalogW argsWlist
      = ⟨false, [], [pyReprStrList (doTemplateList catalogW)], Term.normal⟩ ∧
    List.Sorted (fun a b => a ≤ b) (doTemplateList catalogW) ∧
    (doTemplateList catalogW).Perm (catalogW.map Prod.fst) :=
  C8_template_list_no_creds oWkeys pyFmtW none catalogW argsWlist rfl

/-- C9: every issue created by a template-create run — the parent and
every child — has priority `Major` in its payload, for every parsed
argument record (in particular regardless of the `--priority` value,
which `doTemplateCreate` is never given). -/
theorem C9_template_priority_major (o : Oracle) (pyFmt : PyFmt) (credsFile : Option Creds)
    (catalog : List (String × Template)) (args : Args)
    (h : args.action = CMD_TEMPLATE_CREATE) :
    ∀ f ∈ createdFields (mainRun o pyFmt credsFile catalog args).calls,
      f.lookup "priority" = some (FieldVal.nameObj (some PRIORITY_MAJOR)) := by
  cases credsFile with
  | none =>
    intro f hf
    simp [mainRun, h, CMD_TEMPLATE_CREATE, CMD_TEMPLATE_LIST, createdFields] at hf
  | some creds =>
    have hpri := doTemplateCreate_priority o pyFmt catalog
      (match args.project with
       | some p => some p
       | none => creds.project) args.template args.summary args.assignee
    cases hdo : doTemplateCreate o pyFmt catalog ⟨[], []⟩
      (match args.project with
       | some p => some p
       | none => creds.project) args.template args.summary args.assignee with
    | mk t res =>
      rw [hdo] at hpri
      intro f hf
      refine hpri f ?_
      cases res with
      | ok key =>
        simpa [mainRun, h, CMD_TEMPLATE_CREATE, CMD_TEMPLATE_LIST, CMD_ISSUE_CREATE, hdo] using hf
      | error term =>
        simpa [mainRun, h, CMD_TEMPLATE_CREATE, CMD_TEMPLATE_LIST, CMD_ISSUE_CREATE, hdo] using hf

/-- C9, witness: a template-create run invoked with `--priority Blocker`
still creates all three issues with priority `Major`. -/
theorem C9_template_priority_major_witness :
    (createdFields (mainRun oWkeys pyFmtW (some credsW) catalogW argsWcreate).calls).all
      (fun f => f.lookup "priority" == some (FieldVal.nameObj (some PRIORITY_MAJOR)))
      = true := by
  rw [List.all_eq_true]
  intro f hf
  exact beq_iff_eq.mpr (C9_template_priority_major oWkeys pyFmtW (some credsW) catalogW argsWcreate rfl f hf)

end Jirafly
